import Mathlib

/-!
Shallow embedding of the transaction execution controller in
`pkg/client/transaction/controller.go` of `calmw/tron-sdk`.

The controller drives the pipeline sign → broadcast → confirm over a
transaction, accumulating a fatal `ExecutionError`, an informational
`resultError`, the broadcast acknowledgment `Result` and the confirmation
`Receipt`.  External collaborators (keystore, hardware ledger, gRPC network
client, protobuf marshalling, SHA-256, hex encoding) are modelled as an
explicit environment of pure functions; the network receipt lookup is indexed
by the attempt number so that time-varying poll answers are expressible.
Each pipeline stage additionally reports how many collaborator calls it made,
so that claims about "no broadcast / no polling performed" are statable.
-/

namespace TronTx

/-- Go `error` values are modelled by their message text. -/
abbrev Err := String

/-- Go byte slices are modelled as lists of naturals. -/
abbrev Bytes := List Nat

/-- Opaque stand-in for the protobuf message `core.TransactionRaw`
(the canonical unsigned payload of a transaction). -/
structure TransactionRaw where
  data : Bytes
deriving DecidableEq

/-- Embedding of `core.Transaction`: a raw payload plus the mutable list of
attached signatures (`Signature [][]byte`). -/
structure Transaction where
  rawData : TransactionRaw
  signature : List Bytes
deriving DecidableEq

/-- Embedding of `api.Return`, the network's broadcast acknowledgment:
a status code and a message (Go stores bytes, used via `string(...)`). -/
structure Return where
  code : Int
  message : String
deriving DecidableEq

/-- Embedding of `core.ResourceReceipt` (the resource-usage part of a
transaction receipt); only representative numeric fields are kept. -/
structure ResourceReceipt where
  energyUsage : Int := 0
  netUsage : Int := 0
deriving DecidableEq

/-- Embedding of `core.TransactionInfo` (the execution receipt): the on-chain
result code, the result message and the resource receipt. -/
structure TransactionInfo where
  result : Int := 0
  resMessage : String := ""
  receipt : Option ResourceReceipt := none
deriving DecidableEq

/-- The receipt value synthesized by `TxConfirmation` when polling is skipped:
Go executes `C.Receipt = &core.TransactionInfo{}` followed by
`C.Receipt.Receipt = &core.ResourceReceipt{}` (all-zero fields). -/
def emptyTransactionInfo : TransactionInfo :=
  { result := 0, resMessage := "", receipt := some {} }

/-- Opaque handle for a `keystore.Account`. -/
abbrev Account := Nat

/-- Modelled from the spec: the `SignerImpl` type is declared outside the
included source file.  Following Go convention it is a named integer type with
enumerated constants `Software` and `Ledger`; as a named integer it admits
further values, which the `switch` in `ExecuteTransaction` leaves unhandled. -/
abbrev SignerImpl := Int

/-- The software-signing variant of `SignerImpl`. -/
def Software : SignerImpl := 0

/-- The hardware (ledger) signing variant of `SignerImpl`. -/
def Ledger : SignerImpl := 1

/-- Embedding of the `behavior` configuration struct.  The Go field
`ConfirmationWaitTime` is a `uint32`, used only for comparison with zero,
countdown and message formatting, so it is modelled as `Nat`. -/
structure Behavior where
  dryRun : Bool := false
  signingImpl : SignerImpl := Software
  confirmationWaitTime : Nat := 0
deriving DecidableEq

/-- Embedding of the `Controller` struct.  The `Sender` pair `{Ks, Account}`
collapses to the account handle: the keystore's signing behavior lives in the
environment (`Env.signTx`). -/
structure Controller where
  executionError : Option Err := none
  resultError : Option Err := none
  tx : Transaction
  senderAccount : Account := 0
  behavior : Behavior := {}
  result : Option Return := none
  receipt : Option TransactionInfo := none
deriving DecidableEq

/-- Collaborator-call counts observed during one `ExecuteTransaction` run:
keystore sign calls, ledger sign calls, broadcast calls and receipt queries. -/
structure Stats where
  ksSigns : Nat := 0
  ledgerSigns : Nat := 0
  broadcasts : Nat := 0
  queries : Nat := 0
deriving DecidableEq

/-- The environment of external collaborators (spec section 6): protobuf
marshalling of the raw payload, the SHA-256 digest, hex encoding
(`common.ToHex`), keystore signing (`keystore.KeyStore.SignTx`), hardware
signing (`ledger.SignTx`), broadcast (`client.GrpcClient.Broadcast`) and the
receipt lookup (`client.GrpcClient.GetTransactionInfoByID`), the latter
indexed by the polling attempt number so that answers may vary over time. -/
structure Env where
  marshal : TransactionRaw → Except Err Bytes
  sha256 : Bytes → Bytes
  toHex : Bytes → String
  signTx : Account → Transaction → Except Err Transaction
  ledgerSign : Bytes → Except Err Bytes
  broadcast : Transaction → Except Err Return
  getTransactionInfoByID : String → Nat → Except Err TransactionInfo

/-- Embedding of `Controller.GetRawData`: `proto.Marshal(C.Tx.GetRawData())`. -/
def GetRawData (env : Env) (C : Controller) : Except Err Bytes :=
  env.marshal C.tx.rawData

/-- The error text produced by `fmt.Errorf("bad transaction: %v", string(msg))`. -/
def badTxMsg (msg : String) : String :=
  "bad transaction: " ++ msg

/-- The error text produced by
`fmt.Errorf("could not confirm transaction after %d seconds", wait)`. -/
def timeoutMsg (wait : Nat) : String :=
  "could not confirm transaction after " ++ toString wait ++ " seconds"

/-- The error text produced by `fmt.Errorf("could not get Tx hash")`. -/
def hashErrMsg : String := "could not get Tx hash"

/-- Embedding of `Controller.TransactionHash`: marshal the raw payload,
propagating a marshalling error, otherwise hex-encode its SHA-256 digest. -/
def TransactionHash (env : Env) (C : Controller) : Except Err String :=
  match GetRawData env C with
  | .error e => .error e
  | .ok rawData => .ok (env.toHex (env.sha256 rawData))

/-- Embedding of `Controller.SignTxForSending` (software signing): no-op when
a fatal error is already recorded; otherwise ask the keystore to sign, either
recording the signing error as fatal or replacing the transaction with the
signed one.  The second component counts keystore sign calls. -/
def SignTxForSending (env : Env) (C : Controller) : Controller × Nat :=
  if C.executionError.isSome then (C, 0)
  else
    match env.signTx C.senderAccount C.tx with
    | .error e => ({ C with executionError := some e }, 1)
    | .ok signedTransaction => ({ C with tx := signedTransaction }, 1)

/-- Embedding of `Controller.HardwareSignTxForSending`: no-op when a fatal
error is already recorded; otherwise `data, _ := C.GetRawData()` discards any
marshalling error (leaving `data` as the nil slice), the ledger is asked to
sign `data`, a transport error becomes fatal, and otherwise the returned
signature is appended to the transaction's signature list.  The second
component counts ledger sign calls. -/
def HardwareSignTxForSending (env : Env) (C : Controller) : Controller × Nat :=
  if C.executionError.isSome then (C, 0)
  else
    let data := match GetRawData env C with
      | .ok d => d
      | .error _ => []
    match env.ledgerSign data with
    | .error e => ({ C with executionError := some e }, 1)
    | .ok signature =>
        ({ C with tx := { C.tx with signature := C.tx.signature ++ [signature] } }, 1)

/-- The signing dispatch at the head of `ExecuteTransaction`: a `switch` on
`C.Behavior.SigningImpl` with cases `Software` and `Ledger` and no default,
so any other value performs no signing at all.  Returns the controller plus
(keystore sign calls, ledger sign calls). -/
def dispatchSign (env : Env) (C : Controller) : Controller × Nat × Nat :=
  if C.behavior.signingImpl = Software then
    ((SignTxForSending env C).1, (SignTxForSending env C).2, 0)
  else if C.behavior.signingImpl = Ledger then
    ((HardwareSignTxForSending env C).1, 0, (HardwareSignTxForSending env C).2)
  else (C, 0, 0)

/-- Embedding of `Controller.SendSignedTx`: no-op when errored or in dry-run;
otherwise broadcast, a transport error becoming fatal; a non-zero
acknowledgment code records a fatal "bad transaction" error, and in either
acknowledgment case the acknowledgment is stored in `Result` (the Go
assignment `C.Result = result` is unconditional once `Broadcast` returned
without transport error).  The second component counts broadcast calls. -/
def SendSignedTx (env : Env) (C : Controller) : Controller × Nat :=
  if C.executionError.isSome || C.behavior.dryRun then (C, 0)
  else
    match env.broadcast C.tx with
    | .error e => ({ C with executionError := some e }, 1)
    | .ok result =>
        let C' := if result.code ≠ 0 then
            { C with executionError := some (badTxMsg result.message) }
          else C
        ({ C' with result := some result }, 1)

/-- The receipt-found branch of the polling loop: when the receipt's own
`Result` code is non-zero, the informational `resultError` is set from
`ResMessage`; in either case the receipt is stored. -/
def storeReceipt (C : Controller) (txi : TransactionInfo) : Controller :=
  { (if txi.result ≠ 0 then { C with resultError := some txi.resMessage } else C) with
      receipt := some txi }

/-- The polling loop inside `TxConfirmation`.  The Go loop keeps an integer
budget `start` initialized to `ConfirmationWaitTime`; each iteration queries
the receipt, returns on success, and otherwise errors out with the timeout
message once `start < 0`, else sleeps a second and decrements `start`.  Here
`startP` encodes `start + 1` as a natural, so the exit condition `start < 0`
is `startP = 0`; since the query's outcome does not depend on the budget, the
budget cases are pulled outermost (the query still happens on the exhausted
iteration, exactly as in the source, where the timeout test follows the
query).  `attempt` numbers the queries from 0 and the second component of the
result is the total number of queries performed. -/
def txConfirmationLoop (env : Env) (txHash : String) (wait : Nat) :
    Nat → Nat → Controller → Controller × Nat
  | 0, attempt, C =>
    match env.getTransactionInfoByID txHash attempt with
    | .ok txi => (storeReceipt C txi, attempt + 1)
    | .error _ => ({ C with executionError := some (timeoutMsg wait) }, attempt + 1)
  | s + 1, attempt, C =>
    match env.getTransactionInfoByID txHash attempt with
    | .ok txi => (storeReceipt C txi, attempt + 1)
    | .error _ => txConfirmationLoop env txHash wait s (attempt + 1) C

/-- Embedding of `Controller.TxConfirmation`: no-op when errored or in
dry-run.  With a positive wait budget, compute the transaction hash (a hash
failure is fatal) and enter the polling loop; with a zero budget, store the
synthesized empty receipt.  The second component counts receipt queries. -/
def TxConfirmation (env : Env) (C : Controller) : Controller × Nat :=
  if C.executionError.isSome || C.behavior.dryRun then (C, 0)
  else if 0 < C.behavior.confirmationWaitTime then
    match TransactionHash env C with
    | .error _ => ({ C with executionError := some hashErrMsg }, 0)
    | .ok txHash =>
        txConfirmationLoop env txHash C.behavior.confirmationWaitTime
          (C.behavior.confirmationWaitTime + 1) 0 C
  else
    ({ C with receipt := some emptyTransactionInfo }, 0)

/-- Embedding of `Controller.GetResultError`. -/
def GetResultError (C : Controller) : Option Err :=
  C.resultError

/-- Embedding of `Controller.ExecuteTransaction`: dispatch signing, broadcast,
confirm, and return `C.ExecutionError`.  The result is the returned error,
the final controller state, and the collaborator-call statistics. -/
def ExecuteTransaction (env : Env) (C : Controller) : Option Err × Controller × Stats :=
  let S := dispatchSign env C
  let B := SendSignedTx env S.1
  let Q := TxConfirmation env B.1
  (Q.1.executionError, Q.1, { ksSigns := S.2.1, ledgerSigns := S.2.2, broadcasts := B.2, queries := Q.2 })

/-- Embedding of `NewController` with no options applied: default behavior is
`{false, Software, 0}` (live execution, software signing, zero wait). -/
def NewController (tx : Transaction) (account : Account) : Controller :=
  { tx := tx, senderAccount := account }

/-- Software signing is a no-op once a fatal error is recorded. -/
theorem signTx_noop (env : Env) (C : Controller) (h : C.executionError.isSome) :
    SignTxForSending env C = (C, 0) := by
  simp [SignTxForSending, h]

/-- Hardware signing is a no-op once a fatal error is recorded. -/
theorem hardware_noop (env : Env) (C : Controller) (h : C.executionError.isSome) :
    HardwareSignTxForSending env C = (C, 0) := by
  simp [HardwareSignTxForSending, h]

/-- The signing dispatch is a no-op once a fatal error is recorded. -/
theorem dispatch_noop (env : Env) (C : Controller) (h : C.executionError.isSome) :
    dispatchSign env C = (C, 0, 0) := by
  unfold dispatchSign
  split
  · simp [signTx_noop env C h]
  · split
    · simp [hardware_noop env C h]
    · rfl

/-- Broadcast is a no-op once a fatal error is recorded. -/
theorem send_noop (env : Env) (C : Controller) (h : C.executionError.isSome) :
    SendSignedTx env C = (C, 0) := by
  simp [SendSignedTx, h]

/-- Broadcast is a no-op in dry-run mode. -/
theorem send_dry (env : Env) (C : Controller) (h : C.behavior.dryRun = true) :
    SendSignedTx env C = (C, 0) := by
  simp [SendSignedTx, h]

/-- Confirmation is a no-op once a fatal error is recorded. -/
theorem conf_noop (env : Env) (C : Controller) (h : C.executionError.isSome) :
    TxConfirmation env C = (C, 0) := by
  simp [TxConfirmation, h]

/-- Confirmation is a no-op in dry-run mode. -/
theorem conf_dry (env : Env) (C : Controller) (h : C.behavior.dryRun = true) :
    TxConfirmation env C = (C, 0) := by
  simp [TxConfirmation, h]

/-- Software signing never touches the result, receipt, informational error,
behavior or sender fields. -/
theorem signTx_frame (env : Env) (C : Controller) :
    ((SignTxForSending env C).1).result = C.result ∧
    ((SignTxForSending env C).1).receipt = C.receipt ∧
    ((SignTxForSending env C).1).resultError = C.resultError ∧
    ((SignTxForSending env C).1).behavior = C.behavior := by
  unfold SignTxForSending
  split
  · simp
  · split <;> simp

/-- Hardware signing never touches the result, receipt, informational error,
behavior or sender fields. -/
theorem hardware_frame (env : Env) (C : Controller) :
    ((HardwareSignTxForSending env C).1).result = C.result ∧
    ((HardwareSignTxForSending env C).1).receipt = C.receipt ∧
    ((HardwareSignTxForSending env C).1).resultError = C.resultError ∧
    ((HardwareSignTxForSending env C).1).behavior = C.behavior := by
  unfold HardwareSignTxForSending
  split
  · simp
  · split <;> (dsimp only; split <;> simp)

/-- The signing dispatch never touches the result, receipt, informational
error or behavior fields. -/
theorem dispatch_frame (env : Env) (C : Controller) :
    ((dispatchSign env C).1).result = C.result ∧
    ((dispatchSign env C).1).receipt = C.receipt ∧
    ((dispatchSign env C).1).resultError = C.resultError ∧
    ((dispatchSign env C).1).behavior = C.behavior := by
  unfold dispatchSign
  split
  · exact signTx_frame env C
  · split
    · exact hardware_frame env C
    · exact ⟨rfl, rfl, rfl, rfl⟩

/-- The broadcast step never touches the receipt, informational error,
behavior or transaction fields. -/
theorem send_frame (env : Env) (C : Controller) :
    ((SendSignedTx env C).1).receipt = C.receipt ∧
    ((SendSignedTx env C).1).resultError = C.resultError ∧
    ((SendSignedTx env C).1).behavior = C.behavior ∧
    ((SendSignedTx env C).1).tx = C.tx := by
  unfold SendSignedTx
  split
  · simp
  · split
    · simp
    · split <;> simp

/-- Characterization of the broadcast step on a transport error. -/
theorem send_broadcast_err (env : Env) (C : Controller) (e : Err)
    (hE : C.executionError = none) (hDry : C.behavior.dryRun = false)
    (hBr : env.broadcast C.tx = .error e) :
    SendSignedTx env C = ({ C with executionError := some e }, 1) := by
  simp [SendSignedTx, hE, hDry, hBr]

/-- Characterization of the broadcast step on an acknowledgment with zero
code: the acknowledgment is stored and no error is recorded. -/
theorem send_ok_zero (env : Env) (C : Controller) (r : Return)
    (hE : C.executionError = none) (hDry : C.behavior.dryRun = false)
    (hBr : env.broadcast C.tx = .ok r) (hc : r.code = 0) :
    SendSignedTx env C = ({ C with result := some r }, 1) := by
  simp [SendSignedTx, hE, hDry, hBr, hc]

/-- Characterization of the broadcast step on an acknowledgment with non-zero
code: the fatal error is recorded and the acknowledgment is stored anyway. -/
theorem send_ok_nonzero (env : Env) (C : Controller) (r : Return)
    (hE : C.executionError = none) (hDry : C.behavior.dryRun = false)
    (hBr : env.broadcast C.tx = .ok r) (hc : r.code ≠ 0) :
    SendSignedTx env C =
      ({ C with executionError := some (badTxMsg r.message), result := some r }, 1) := by
  simp [SendSignedTx, hE, hDry, hBr, hc]

/-- The transaction hash depends only on the transaction held by the
controller. -/
theorem hash_congr (env : Env) (C₁ C₂ : Controller) (h : C₁.tx = C₂.tx) :
    TransactionHash env C₁ = TransactionHash env C₂ := by
  simp [TransactionHash, GetRawData, h]

/-- One-step unfolding equation for the polling loop, matching the Go
iteration order: query first, then test the budget. -/
theorem txConfirmationLoop_eq (env : Env) (txHash : String) (wait startP attempt : Nat)
    (C : Controller) :
    txConfirmationLoop env txHash wait startP attempt C =
      match env.getTransactionInfoByID txHash attempt with
      | .ok txi => (storeReceipt C txi, attempt + 1)
      | .error _ =>
          match startP with
          | 0 => ({ C with executionError := some (timeoutMsg wait) }, attempt + 1)
          | s + 1 => txConfirmationLoop env txHash wait s (attempt + 1) C := by
  cases startP <;> rfl

/-- If every receipt query fails, the polling loop runs through its whole
budget, records the timeout error and performs `startP + 1` further queries. -/
theorem txLoop_all_err (env : Env) (hx : String) (wait : Nat)
    (herr : ∀ i, ∃ e, env.getTransactionInfoByID hx i = .error e) :
    ∀ (startP attempt : Nat) (C : Controller),
    txConfirmationLoop env hx wait startP attempt C =
      ({ C with executionError := some (timeoutMsg wait) }, attempt + startP + 1) := by
  intro startP
  induction startP with
  | zero =>
    intro attempt C
    obtain ⟨e, he⟩ := herr attempt
    rw [txConfirmationLoop_eq, he]
  | succ s ih =>
    intro attempt C
    obtain ⟨e, he⟩ := herr attempt
    rw [txConfirmationLoop_eq, he]
    show txConfirmationLoop env hx wait s (attempt + 1) C = _
    rw [ih (attempt + 1) C]
    simp only [Prod.mk.injEq]
    exact ⟨trivial, by omega⟩

/-- If the first `n` receipt queries fail and the query of attempt `n`
returns a receipt within the budget, the polling loop stores that receipt
(setting the informational error when its status is non-zero) after exactly
`n + 1` queries. -/
theorem txLoop_first_ok (env : Env) (hx : String) (wait : Nat) :
    ∀ (n startP attempt : Nat) (C : Controller) (txi : TransactionInfo),
    (∀ i, i < n → ∃ e, env.getTransactionInfoByID hx (attempt + i) = .error e) →
    env.getTransactionInfoByID hx (attempt + n) = .ok txi →
    n ≤ startP →
    txConfirmationLoop env hx wait startP attempt C =
      (storeReceipt C txi, attempt + n + 1) := by
  intro n
  induction n with
  | zero =>
    intro startP attempt C txi herr hok hle
    have hok' : env.getTransactionInfoByID hx attempt = .ok txi := by simpa using hok
    rw [txConfirmationLoop_eq, hok']
  | succ m ih =>
    intro startP attempt C txi herr hok hle
    obtain ⟨e, he⟩ := herr 0 (by omega)
    have he' : env.getTransactionInfoByID hx attempt = .error e := by simpa using he
    rw [txConfirmationLoop_eq, he']
    cases startP with
    | zero => omega
    | succ s =>
      show txConfirmationLoop env hx wait s (attempt + 1) C = _
      have h2 : ∀ i, i < m → ∃ e, env.getTransactionInfoByID hx (attempt + 1 + i) = .error e := by
        intro i hi
        have h3 := herr (i + 1) (by omega)
        rw [show attempt + (i + 1) = attempt + 1 + i by omega] at h3
        exact h3
      have hok2 : env.getTransactionInfoByID hx (attempt + 1 + m) = .ok txi := by
        rw [show attempt + 1 + m = attempt + (m + 1) by omega]
        exact hok
      rw [ih s (attempt + 1) C txi h2 hok2 (by omega)]
      simp only [Prod.mk.injEq]
      exact ⟨trivial, by omega⟩

/-- The polling loop never touches the result, behavior or transaction
fields, and either stores a receipt leaving the fatal error untouched, or
leaves receipt and informational error untouched and records the timeout. -/
theorem txLoop_frame (env : Env) (hx : String) (wait : Nat) :
    ∀ (startP attempt : Nat) (C : Controller),
    ((txConfirmationLoop env hx wait startP attempt C).1.result = C.result ∧
     (txConfirmationLoop env hx wait startP attempt C).1.behavior = C.behavior ∧
     (txConfirmationLoop env hx wait startP attempt C).1.tx = C.tx) ∧
    (((txConfirmationLoop env hx wait startP attempt C).1.executionError = C.executionError ∧
      ∃ txi, (txConfirmationLoop env hx wait startP attempt C).1.receipt = some txi) ∨
     ((txConfirmationLoop env hx wait startP attempt C).1.receipt = C.receipt ∧
      (txConfirmationLoop env hx wait startP attempt C).1.resultError = C.resultError ∧
      (txConfirmationLoop env hx wait startP attempt C).1.executionError =
        some (timeoutMsg wait))) := by
  intro startP
  induction startP with
  | zero =>
    intro attempt C
    rw [txConfirmationLoop_eq]
    cases hg : env.getTransactionInfoByID hx attempt with
    | ok txi =>
      simp only [hg]
      refine ⟨⟨?_, ?_, ?_⟩, Or.inl ⟨?_, txi, ?_⟩⟩ <;> simp [storeReceipt, apply_ite]
    | error e => simp [hg]
  | succ s ih =>
    intro attempt C
    rw [txConfirmationLoop_eq]
    cases hg : env.getTransactionInfoByID hx attempt with
    | ok txi =>
      simp only [hg]
      refine ⟨⟨?_, ?_, ?_⟩, Or.inl ⟨?_, txi, ?_⟩⟩ <;> simp [storeReceipt, apply_ite]
    | error e =>
      simp only [hg]
      exact ih (attempt + 1) C

/-- Characterization of confirmation with a zero wait budget: no query, the
empty receipt is stored. -/
theorem conf_zero_wait (env : Env) (C : Controller)
    (hE : C.executionError = none) (hDry : C.behavior.dryRun = false)
    (hW : C.behavior.confirmationWaitTime = 0) :
    TxConfirmation env C = ({ C with receipt := some emptyTransactionInfo }, 0) := by
  simp [TxConfirmation, hE, hDry, hW]

/-- Characterization of confirmation when the hash computation fails. -/
theorem conf_hash_err (env : Env) (C : Controller) (e : Err)
    (hE : C.executionError = none) (hDry : C.behavior.dryRun = false)
    (hW : 0 < C.behavior.confirmationWaitTime)
    (hh : TransactionHash env C = .error e) :
    TxConfirmation env C = ({ C with executionError := some hashErrMsg }, 0) := by
  simp [TxConfirmation, hE, hDry, hW, hh]

/-- Characterization of confirmation when polling actually starts. -/
theorem conf_poll (env : Env) (C : Controller) (hx : String)
    (hE : C.executionError = none) (hDry : C.behavior.dryRun = false)
    (hW : 0 < C.behavior.confirmationWaitTime)
    (hh : TransactionHash env C = .ok hx) :
    TxConfirmation env C =
      txConfirmationLoop env hx C.behavior.confirmationWaitTime
        (C.behavior.confirmationWaitTime + 1) 0 C := by
  simp [TxConfirmation, hE, hDry, hW, hh]

/-- If confirmation starts without a recorded fatal error and ends with one,
it left the receipt field untouched. -/
theorem conf_err_receipt (env : Env) (C : Controller)
    (hE : C.executionError = none)
    (h : ((TxConfirmation env C).1).executionError.isSome) :
    ((TxConfirmation env C).1).receipt = C.receipt := by
  by_cases hdry : C.behavior.dryRun = true
  · rw [conf_dry env C hdry]
  · have hdry' : C.behavior.dryRun = false := by simpa using hdry
    by_cases hw : 0 < C.behavior.confirmationWaitTime
    · cases hh : TransactionHash env C with
      | error e => rw [conf_hash_err env C e hE hdry' hw hh]
      | ok hx =>
        rw [conf_poll env C hx hE hdry' hw hh] at h ⊢
        rcases (txLoop_frame env hx C.behavior.confirmationWaitTime
            (C.behavior.confirmationWaitTime + 1) 0 C).2 with hl | hl
        · rw [hl.1, hE] at h
          simp at h
        · exact hl.1
    · rw [conf_zero_wait env C hE hdry' (by omega)] at h
      simp [hE] at h

/-- The final controller state of a pipeline run is the confirmation stage's
output on the broadcast stage's output on the signing stage's output. -/
theorem exec_state (env : Env) (C : Controller) :
    (ExecuteTransaction env C).2.1 =
      (TxConfirmation env (SendSignedTx env (dispatchSign env C).1).1).1 := rfl

/-- The returned error of a pipeline run is the final state's fatal error. -/
theorem exec_ret (env : Env) (C : Controller) :
    (ExecuteTransaction env C).1 =
      ((TxConfirmation env (SendSignedTx env (dispatchSign env C).1).1).1).executionError := rfl

/-- The query count of a pipeline run is the confirmation stage's count. -/
theorem exec_queries (env : Env) (C : Controller) :
    ((ExecuteTransaction env C).2.2).queries =
      (TxConfirmation env (SendSignedTx env (dispatchSign env C).1).1).2 := rfl

/-- The broadcast count of a pipeline run is the broadcast stage's count. -/
theorem exec_broadcasts (env : Env) (C : Controller) :
    ((ExecuteTransaction env C).2.2).broadcasts =
      (SendSignedTx env (dispatchSign env C).1).2 := rfl

/-- A concrete transaction used in witnesses and counterexamples. -/
def tx0 : Transaction := { rawData := { data := [1] }, signature := [] }

/-- A concrete environment: marshalling succeeds, software signing succeeds
without changing the transaction, broadcast is rejected with code 1 and
message "denied", and the receipt lookup always fails. -/
def envReject : Env :=
  { marshal := fun raw => .ok raw.data
    sha256 := fun b => b
    toHex := fun _ => "aa"
    signTx := fun _ tx => .ok tx
    ledgerSign := fun _ => .ok [2]
    broadcast := fun _ => .ok { code := 1, message := "denied" }
    getTransactionInfoByID := fun _ _ => .error "pending" }

/-- Like `envReject` but the broadcast is accepted with code 0 and the
receipt lookup fails on attempt 0 and afterwards returns a receipt whose
on-chain result code is non-zero. -/
def envConfirm : Env :=
  { envReject with
    broadcast := fun _ => .ok { code := 0, message := "" }
    getTransactionInfoByID := fun _ attempt =>
      if attempt = 0 then .error "pending"
      else .ok { result := 1, resMessage := "REVERT", receipt := none } }

/-- Like `envReject` but the broadcast is accepted with code 0 (the receipt
lookup still always fails). -/
def envTimeout : Env :=
  { envReject with broadcast := fun _ => .ok { code := 0, message := "" } }

/-- Like `envReject` but marshalling fails. -/
def envNoMarshal : Env :=
  { envReject with marshal := fun _ => .error "encode fail" }

/-- A freshly constructed controller with default behavior. -/
def ctl0 : Controller := NewController tx0 0

/-- A controller with a pre-recorded fatal error. -/
def ctlErr : Controller := { tx := tx0, executionError := some "boom" }

/-- A controller in dry-run mode. -/
def ctlDry : Controller := { tx := tx0, behavior := { dryRun := true } }

/-- A controller with a one-second confirmation budget. -/
def ctlWait1 : Controller := { tx := tx0, behavior := { confirmationWaitTime := 1 } }

/-- A controller with a two-second confirmation budget. -/
def ctlWait2 : Controller := { tx := tx0, behavior := { confirmationWaitTime := 2 } }

/-- A controller whose signing variant is neither `Software` nor `Ledger`. -/
def ctlOther : Controller := { tx := tx0, behavior := { signingImpl := 2 } }

/-- Claim C2 (confirmed): the value returned by ExecuteTransaction is exactly
the recorded fatal error; once a fatal error is recorded, every stage
(signing, broadcast, confirmation) is a no-op performing no collaborator call
and leaving the whole state — in particular the error — unchanged, so the
first-encountered fatal error is returned, and nil is returned when no stage
records one. -/
theorem c2_theorem (env : Env) (C : Controller) :
    (ExecuteTransaction env C).1 = ((ExecuteTransaction env C).2.1).executionError ∧
    (∀ e : Err, C.executionError = some e →
      SignTxForSending env C = (C, 0) ∧
      HardwareSignTxForSending env C = (C, 0) ∧
      SendSignedTx env C = (C, 0) ∧
      TxConfirmation env C = (C, 0) ∧
      ExecuteTransaction env C =
        (some e, C, { ksSigns := 0, ledgerSigns := 0, broadcasts := 0, queries := 0 })) := by
  constructor
  · rfl
  · intro e he
    have hs : C.executionError.isSome := by simp [he]
    refine ⟨signTx_noop env C hs, hardware_noop env C hs, send_noop env C hs,
      conf_noop env C hs, ?_⟩
    simp [ExecuteTransaction, dispatch_noop env C hs, send_noop env C hs,
      conf_noop env C hs, he]

/-- Witness for C2 at a concrete errored controller. -/
theorem c2_witness :
    ExecuteTransaction envReject ctlErr =
      (some "boom", ctlErr,
        { ksSigns := 0, ledgerSigns := 0, broadcasts := 0, queries := 0 }) :=
  ((c2_theorem envReject ctlErr).2 "boom" rfl).2.2.2.2

/-- Counterexample to claim C5 as stated: with dryRun = true the pipeline
indeed performs no broadcast call and no receipt query, but the receipt field
is nil afterwards — no "empty" receipt value is synthesized. -/
theorem c5_counterexample :
    ((ExecuteTransaction envReject ctlDry).2.1).receipt = none ∧
    ((ExecuteTransaction envReject ctlDry).2.2).broadcasts = 0 ∧
    ((ExecuteTransaction envReject ctlDry).2.2).queries = 0 :=
  ⟨rfl, rfl, rfl⟩

/-- Claim C5 (amended and proved): with dryRun = true and no prior fatal
error, ExecuteTransaction invokes neither the broadcast call nor any receipt
query, and the receipt field is left unchanged — so it remains nil and no
empty receipt is synthesized. -/
theorem c5_theorem (env : Env) (C : Controller)
    (hE : C.executionError = none) (hDry : C.behavior.dryRun = true) :
    ((ExecuteTransaction env C).2.2).broadcasts = 0 ∧
    ((ExecuteTransaction env C).2.2).queries = 0 ∧
    ((ExecuteTransaction env C).2.1).receipt = C.receipt := by
  have hdB := (dispatch_frame env C).2.2.2
  have hdRc := (dispatch_frame env C).2.1
  have hdry1 : ((dispatchSign env C).1).behavior.dryRun = true := by rw [hdB]; exact hDry
  simp [ExecuteTransaction, send_dry env (dispatchSign env C).1 hdry1,
    conf_dry env (dispatchSign env C).1 hdry1, hdRc]

/-- Witness for C5 (amended) at a concrete dry-run controller. -/
theorem c5_witness :
    ((ExecuteTransaction envReject ctlDry).2.2).broadcasts = 0 ∧
    ((ExecuteTransaction envReject ctlDry).2.2).queries = 0 ∧
    ((ExecuteTransaction envReject ctlDry).2.1).receipt = ctlDry.receipt :=
  c5_theorem envReject ctlDry rfl rfl

/-- Claim C6 (confirmed): when the broadcast acknowledgment carries a
non-zero code and a non-empty message, ExecuteTransaction returns a fatal
error whose text contains that message, and no receipt query is performed
afterwards. -/
theorem c6_theorem (env : Env) (C : Controller) (r : Return)
    (hE : C.executionError = none) (hDry : C.behavior.dryRun = false)
    (hSign : ((dispatchSign env C).1).executionError = none)
    (hBr : env.broadcast ((dispatchSign env C).1).tx = .ok r)
    (hCode : r.code ≠ 0) (hMsg : r.message ≠ "") :
    (ExecuteTransaction env C).1 = some (badTxMsg r.message) ∧
    (∃ pre post, badTxMsg r.message = pre ++ r.message ++ post) ∧
    ((ExecuteTransaction env C).2.2).queries = 0 := by
  have hdB := (dispatch_frame env C).2.2.2
  have hdry1 : ((dispatchSign env C).1).behavior.dryRun = false := by rw [hdB]; exact hDry
  have hs := send_ok_nonzero env (dispatchSign env C).1 r hSign hdry1 hBr hCode
  have hc := conf_noop env
    ({ (dispatchSign env C).1 with
        executionError := some (badTxMsg r.message), result := some r }) (by rfl)
  refine ⟨?_, ⟨"bad transaction: ", "", ?_⟩, ?_⟩
  · simp [ExecuteTransaction, hs, hc]
  · simp [badTxMsg]
  · simp [ExecuteTransaction, hs, hc]

/-- Witness for C6 at a concrete rejected broadcast. -/
theorem c6_witness :
    (ExecuteTransaction envReject ctl0).1 = some (badTxMsg "denied") ∧
    (∃ pre post, badTxMsg "denied" = pre ++ "denied" ++ post) ∧
    ((ExecuteTransaction envReject ctl0).2.2).queries = 0 :=
  c6_theorem envReject ctl0 { code := 1, message := "denied" } rfl rfl rfl rfl
    (by decide) (by decide)

/-- Claim C7 (confirmed): with a zero confirmation budget, no prior fatal
error and dry-run off, the confirmation step performs no receipt query and
stores the synthesized empty receipt (all-zero status and resource usage). -/
theorem c7_theorem (env : Env) (C : Controller)
    (hE : C.executionError = none) (hDry : C.behavior.dryRun = false)
    (hW : C.behavior.confirmationWaitTime = 0) :
    TxConfirmation env C = ({ C with receipt := some emptyTransactionInfo }, 0) ∧
    emptyTransactionInfo.result = 0 ∧
    emptyTransactionInfo.resMessage = "" ∧
    emptyTransactionInfo.receipt = some { energyUsage := 0, netUsage := 0 } :=
  ⟨conf_zero_wait env C hE hDry hW, rfl, rfl, rfl⟩

/-- Witness for C7 at a concrete zero-wait controller. -/
theorem c7_witness :
    TxConfirmation envReject ctl0 = ({ ctl0 with receipt := some emptyTransactionInfo }, 0) ∧
    emptyTransactionInfo.result = 0 ∧
    emptyTransactionInfo.resMessage = "" ∧
    emptyTransactionInfo.receipt = some { energyUsage := 0, netUsage := 0 } :=
  c7_theorem envReject ctl0 rfl rfl rfl

/-- Claim C8 (confirmed): when the raw-payload encoding succeeds, the
transaction hash is a function of the raw payload alone — so computing it
twice on an unmodified transaction yields the same hexadecimal string, and
appending a signature to the signature list (which leaves the raw payload
untouched) does not change it. -/
theorem c8_theorem (env : Env) (C : Controller) (sig bs : Bytes)
    (hM : env.marshal C.tx.rawData = .ok bs) :
    (∀ C' : Controller, C'.tx.rawData = C.tx.rawData →
      TransactionHash env C' = TransactionHash env C) ∧
    TransactionHash env C = .ok (env.toHex (env.sha256 bs)) ∧
    TransactionHash env
        { C with tx := { C.tx with signature := C.tx.signature ++ [sig] } } =
      TransactionHash env C := by
  refine ⟨?_, ?_, ?_⟩
  · intro C' h
    simp [TransactionHash, GetRawData, h]
  · simp [TransactionHash, GetRawData, hM]
  · simp [TransactionHash, GetRawData]

/-- Witness for C8 at a concrete transaction. -/
theorem c8_witness :
    TransactionHash envReject ctl0 = .ok (envReject.toHex (envReject.sha256 [1])) ∧
    TransactionHash envReject
        { ctl0 with tx := { ctl0.tx with signature := ctl0.tx.signature ++ [[9]] } } =
      TransactionHash envReject ctl0 :=
  ⟨(c8_theorem envReject ctl0 [9] [1] rfl).2.1, (c8_theorem envReject ctl0 [9] [1] rfl).2.2⟩

/-- Claim C9 (confirmed): in the hardware signing step a raw-payload encoding
failure is silently discarded — no fatal error is recorded, the ledger is
still invoked (here with the nil byte slice the failed marshalling left
behind) and its signature is appended to the transaction — whereas
TransactionHash propagates the very same encoding failure as an error. -/
theorem c9_theorem (env : Env) (C : Controller) (e : Err) (sig : Bytes)
    (hE : C.executionError = none)
    (hM : env.marshal C.tx.rawData = .error e)
    (hL : env.ledgerSign [] = .ok sig) :
    HardwareSignTxForSending env C =
      ({ C with tx := { C.tx with signature := C.tx.signature ++ [sig] } }, 1) ∧
    ((HardwareSignTxForSending env C).1).executionError = none ∧
    TransactionHash env C = .error e := by
  have h1 : HardwareSignTxForSending env C =
      ({ C with tx := { C.tx with signature := C.tx.signature ++ [sig] } }, 1) := by
    simp [HardwareSignTxForSending, GetRawData, hE, hM, hL]
  refine ⟨h1, ?_, ?_⟩
  · rw [h1]
    exact hE
  · simp [TransactionHash, GetRawData, hM]

/-- Witness for C9 at a concrete environment with failing marshalling. -/
theorem c9_witness :
    HardwareSignTxForSending envNoMarshal ctl0 =
      ({ ctl0 with tx := { ctl0.tx with signature := ctl0.tx.signature ++ [[2]] } }, 1) ∧
    ((HardwareSignTxForSending envNoMarshal ctl0).1).executionError = none ∧
    TransactionHash envNoMarshal ctl0 = .error "encode fail" :=
  c9_theorem envNoMarshal ctl0 "encode fail" [2] rfl rfl rfl

/-- Claim C10 (confirmed): for a signing-variant value that is neither
Software nor Ledger, ExecuteTransaction performs no signing step at all — no
keystore or ledger call, no error recorded, the controller unchanged — and
proceeds directly to broadcast the unsigned transaction and then to
confirmation. -/
theorem c10_theorem (env : Env) (C : Controller)
    (h1 : C.behavior.signingImpl ≠ Software) (h2 : C.behavior.signingImpl ≠ Ledger) :
    dispatchSign env C = (C, 0, 0) ∧
    ((ExecuteTransaction env C).2.2).ksSigns = 0 ∧
    ((ExecuteTransaction env C).2.2).ledgerSigns = 0 ∧
    (ExecuteTransaction env C).2.1 = (TxConfirmation env (SendSignedTx env C).1).1 ∧
    ((ExecuteTransaction env C).2.2).broadcasts = (SendSignedTx env C).2 ∧
    ((ExecuteTransaction env C).2.2).queries = (TxConfirmation env (SendSignedTx env C).1).2 ∧
    (ExecuteTransaction env C).1 =
      ((TxConfirmation env (SendSignedTx env C).1).1).executionError := by
  have hd : dispatchSign env C = (C, 0, 0) := by
    unfold dispatchSign
    rw [if_neg h1, if_neg h2]
  exact ⟨hd, by simp [ExecuteTransaction, hd], by simp [ExecuteTransaction, hd],
    by simp [ExecuteTransaction, hd], by simp [ExecuteTransaction, hd],
    by simp [ExecuteTransaction, hd], by simp [ExecuteTransaction, hd]⟩

/-- Witness for C10 at a concrete controller with signing variant 2. -/
theorem c10_witness :
    dispatchSign envReject ctlOther = (ctlOther, 0, 0) ∧
    ((ExecuteTransaction envReject ctlOther).2.2).ksSigns = 0 ∧
    ((ExecuteTransaction envReject ctlOther).2.2).ledgerSigns = 0 ∧
    (ExecuteTransaction envReject ctlOther).2.1 =
      (TxConfirmation envReject (SendSignedTx envReject ctlOther).1).1 ∧
    ((ExecuteTransaction envReject ctlOther).2.2).broadcasts =
      (SendSignedTx envReject ctlOther).2 ∧
    ((ExecuteTransaction envReject ctlOther).2.2).queries =
      (TxConfirmation envReject (SendSignedTx envReject ctlOther).1).2 ∧
    (ExecuteTransaction envReject ctlOther).1 =
      ((TxConfirmation envReject (SendSignedTx envReject ctlOther).1).1).executionError :=
  c10_theorem envReject ctlOther (by decide) (by decide)

/-- Counterexample to claim C1 as stated: when the broadcast acknowledgment
has non-zero code, the broadcast step records the fatal error AND stores the
acknowledgment in Result, so "ExecutionError non-nil implies Result nil"
fails (the receipt does remain nil). -/
theorem c1_counterexample :
    ((ExecuteTransaction envReject ctl0).2.1).executionError = some (badTxMsg "denied") ∧
    ((ExecuteTransaction envReject ctl0).2.1).result = some { code := 1, message := "denied" } ∧
    ((ExecuteTransaction envReject ctl0).2.1).receipt = none :=
  ⟨rfl, rfl, rfl⟩

/-- Claim C1 (amended and proved): starting from a controller with no error
and unset Result and Receipt, whenever ExecutionError is non-nil after
ExecuteTransaction the Receipt remains nil; the Result field, however, does
not remain nil in general — when the broadcast acknowledgment itself has
non-zero code, the fatal error is recorded and the acknowledgment is
nevertheless stored in Result. -/
theorem c1_theorem (env : Env) (C : Controller)
    (hE : C.executionError = none) (hR : C.result = none) (hRc : C.receipt = none) :
    (((ExecuteTransaction env C).2.1).executionError.isSome →
      ((ExecuteTransaction env C).2.1).receipt = none) ∧
    (∀ r : Return, ((dispatchSign env C).1).executionError = none →
      C.behavior.dryRun = false →
      env.broadcast ((dispatchSign env C).1).tx = .ok r → r.code ≠ 0 →
      ((ExecuteTransaction env C).2.1).executionError = some (badTxMsg r.message) ∧
      ((ExecuteTransaction env C).2.1).result = some r) := by
  obtain ⟨hdR, hdRc, hdRE, hdB⟩ := dispatch_frame env C
  by_cases h1 : ((dispatchSign env C).1).executionError.isSome
  · have hs := send_noop env (dispatchSign env C).1 h1
    have hb1err : ((SendSignedTx env (dispatchSign env C).1).1).executionError.isSome := by
      rw [hs]; exact h1
    have hc := conf_noop env (SendSignedTx env (dispatchSign env C).1).1 hb1err
    constructor
    · intro _
      rw [exec_state env C, hc, hs]
      simp [hdRc, hRc]
    · intro r hSign
      rw [hSign] at h1
      simp at h1
  · have h1' : ((dispatchSign env C).1).executionError = none := by
      simpa [Option.not_isSome_iff_eq_none] using h1
    by_cases hdry : C.behavior.dryRun = true
    · have hdry1 : ((dispatchSign env C).1).behavior.dryRun = true := by rw [hdB]; exact hdry
      have hs := send_dry env (dispatchSign env C).1 hdry1
      have hb1dry : ((SendSignedTx env (dispatchSign env C).1).1).behavior.dryRun = true := by
        rw [hs]; exact hdry1
      have hc := conf_dry env (SendSignedTx env (dispatchSign env C).1).1 hb1dry
      constructor
      · intro habs
        rw [exec_state env C, hc, hs] at habs
        rw [h1'] at habs
        simp at habs
      · intro r _ hDryF
        rw [hdry] at hDryF
        simp at hDryF
    · have hdry' : C.behavior.dryRun = false := by simpa using hdry
      have hdry1 : ((dispatchSign env C).1).behavior.dryRun = false := by rw [hdB]; exact hdry'
      cases hbr : env.broadcast ((dispatchSign env C).1).tx with
      | error e =>
        have hs := send_broadcast_err env (dispatchSign env C).1 e h1' hdry1 hbr
        have hb1err : ((SendSignedTx env (dispatchSign env C).1).1).executionError.isSome := by
          rw [hs]; rfl
        have hc := conf_noop env (SendSignedTx env (dispatchSign env C).1).1 hb1err
        constructor
        · intro _
          rw [exec_state env C, hc, hs]
          simp [hdRc, hRc]
        · intro r _ _ hBr
          simp at hBr
      | ok r =>
        by_cases hcode : r.code = 0
        · have hs := send_ok_zero env (dispatchSign env C).1 r h1' hdry1 hbr hcode
          have hB1E : ((SendSignedTx env (dispatchSign env C).1).1).executionError = none := by
            rw [hs]; exact h1'
          constructor
          · intro habs
            rw [exec_state env C] at habs ⊢
            rw [conf_err_receipt env _ hB1E habs, hs]
            simp [hdRc, hRc]
          · intro r' _ _ hBr hc'
            rw [Except.ok.injEq] at hBr
            rw [← hBr] at hc'
            exact absurd hcode hc'
        · have hs := send_ok_nonzero env (dispatchSign env C).1 r h1' hdry1 hbr hcode
          have hb1err : ((SendSignedTx env (dispatchSign env C).1).1).executionError.isSome := by
            rw [hs]; rfl
          have hc := conf_noop env (SendSignedTx env (dispatchSign env C).1).1 hb1err
          constructor
          · intro _
            rw [exec_state env C, hc, hs]
            simp [hdRc, hRc]
          · intro r' _ _ hBr _
            rw [Except.ok.injEq] at hBr
            rw [← hBr]
            constructor
            · rw [exec_state env C, hc, hs]
            · rw [exec_state env C, hc, hs]

/-- Witness for C1 (amended) at a concrete rejected broadcast. -/
theorem c1_witness :
    (((ExecuteTransaction envReject ctl0).2.1).executionError.isSome →
      ((ExecuteTransaction envReject ctl0).2.1).receipt = none) ∧
    (∀ r : Return, ((dispatchSign envReject ctl0).1).executionError = none →
      ctl0.behavior.dryRun = false →
      envReject.broadcast ((dispatchSign envReject ctl0).1).tx = .ok r → r.code ≠ 0 →
      ((ExecuteTransaction envReject ctl0).2.1).executionError = some (badTxMsg r.message) ∧
      ((ExecuteTransaction envReject ctl0).2.1).result = some r) :=
  c1_theorem envReject ctl0 rfl rfl rfl

/-- Claim C3 (confirmed): when the broadcast is acknowledged with code 0 and
the receipt lookup succeeds within the budget with a receipt whose status is
non-zero, ExecuteTransaction returns nil, the result-error accessor returns
the error built from the receipt's result message, and the receipt is stored
in the controller. -/
theorem c3_theorem (env : Env) (C : Controller) (r : Return) (txi : TransactionInfo)
    (hx : String) (n : Nat)
    (hE : C.executionError = none) (hDry : C.behavior.dryRun = false)
    (hW : 0 < C.behavior.confirmationWaitTime)
    (hSign : ((dispatchSign env C).1).executionError = none)
    (hBr : env.broadcast ((dispatchSign env C).1).tx = .ok r)
    (hCode : r.code = 0)
    (hHash : TransactionHash env (dispatchSign env C).1 = .ok hx)
    (herr : ∀ i, i < n → ∃ e, env.getTransactionInfoByID hx i = .error e)
    (hok : env.getTransactionInfoByID hx n = .ok txi)
    (hn : n ≤ C.behavior.confirmationWaitTime + 1)
    (hStatus : txi.result ≠ 0) :
    (ExecuteTransaction env C).1 = none ∧
    GetResultError (ExecuteTransaction env C).2.1 = some txi.resMessage ∧
    ((ExecuteTransaction env C).2.1).receipt = some txi := by
  obtain ⟨hdR, hdRc, hdRE, hdB⟩ := dispatch_frame env C
  have hdry1 : ((dispatchSign env C).1).behavior.dryRun = false := by rw [hdB]; exact hDry
  have hs := send_ok_zero env (dispatchSign env C).1 r hSign hdry1 hBr hCode
  have hB1E : ((SendSignedTx env (dispatchSign env C).1).1).executionError = none := by
    rw [hs]; exact hSign
  have hB1dry : ((SendSignedTx env (dispatchSign env C).1).1).behavior.dryRun = false := by
    rw [hs]; exact hdry1
  have hB1wait : ((SendSignedTx env (dispatchSign env C).1).1).behavior.confirmationWaitTime
      = C.behavior.confirmationWaitTime := by
    rw [hs]
    show ((dispatchSign env C).1).behavior.confirmationWaitTime = _
    rw [hdB]
  have hW' : 0 < ((SendSignedTx env (dispatchSign env C).1).1).behavior.confirmationWaitTime := by
    rw [hB1wait]; exact hW
  have htx : ((SendSignedTx env (dispatchSign env C).1).1).tx = ((dispatchSign env C).1).tx := by
    rw [hs]
  have hB1hash :
      TransactionHash env ((SendSignedTx env (dispatchSign env C).1).1) = .ok hx :=
    (hash_congr env _ _ htx).trans hHash
  have hpoll := conf_poll env ((SendSignedTx env (dispatchSign env C).1).1) hx
    hB1E hB1dry hW' hB1hash
  have hloop := txLoop_first_ok env hx
    (((SendSignedTx env (dispatchSign env C).1).1).behavior.confirmationWaitTime) n
    ((((SendSignedTx env (dispatchSign env C).1).1).behavior.confirmationWaitTime) + 1) 0
    ((SendSignedTx env (dispatchSign env C).1).1) txi
    (by intro i hi; simpa using herr i hi)
    (by simpa using hok)
    (by rw [hB1wait]; omega)
  have hcomb : TxConfirmation env ((SendSignedTx env (dispatchSign env C).1).1) =
      (storeReceipt ((SendSignedTx env (dispatchSign env C).1).1) txi, 0 + n + 1) := by
    rw [hpoll, hloop]
  refine ⟨?_, ?_, ?_⟩
  · rw [exec_ret env C, hcomb]
    simp [storeReceipt, apply_ite, hB1E]
  · show ((ExecuteTransaction env C).2.1).resultError = some txi.resMessage
    rw [exec_state env C, hcomb]
    simp [storeReceipt, hStatus]
  · rw [exec_state env C, hcomb]
    simp [storeReceipt]

/-- Witness for C3 at a concrete environment whose second lookup attempt
returns a receipt with non-zero status. -/
theorem c3_witness :
    (ExecuteTransaction envConfirm ctlWait1).1 = none ∧
    GetResultError (ExecuteTransaction envConfirm ctlWait1).2.1 = some "REVERT" ∧
    ((ExecuteTransaction envConfirm ctlWait1).2.1).receipt =
      some { result := 1, resMessage := "REVERT", receipt := none } :=
  c3_theorem envConfirm ctlWait1 { code := 0, message := "" }
    { result := 1, resMessage := "REVERT", receipt := none } "aa" 1
    rfl rfl (by decide) rfl rfl rfl rfl
    (by
      intro i hi
      have h0 : i = 0 := by omega
      subst h0
      exact ⟨"pending", rfl⟩)
    rfl (by decide) (by decide)

/-- Counterexample to claim C4 as stated: with a two-second budget and a
lookup that always fails, the loop performs exactly 4 receipt queries (budget
values 2, 1, 0 and −1 — the exhausted-budget iteration still queries before
the timeout test), not 3. -/
theorem c4_counterexample :
    ((ExecuteTransaction envTimeout ctlWait2).2.2).queries = 4 ∧
    ¬(((ExecuteTransaction envTimeout ctlWait2).2.2).queries = 3) ∧
    (ExecuteTransaction envTimeout ctlWait2).1 = some (timeoutMsg 2) :=
  ⟨rfl, by decide, rfl⟩

/-- Claim C4 (amended and proved): with confirmationWaitSeconds = 2 and a
receipt lookup that always returns an error — every lookup error, of any
kind, being treated as "not yet available" and retried — the polling loop
terminates, ExecuteTransaction returns the fatal timeout error, and exactly
4 receipt queries are performed (one per iteration at budget values 2, 1, 0
and −1: the boundary iteration queries before detecting exhaustion). -/
theorem c4_theorem (env : Env) (C : Controller) (r : Return) (hx : String)
    (hE : C.executionError = none) (hDry : C.behavior.dryRun = false)
    (hW : C.behavior.confirmationWaitTime = 2)
    (hSign : ((dispatchSign env C).1).executionError = none)
    (hBr : env.broadcast ((dispatchSign env C).1).tx = .ok r)
    (hCode : r.code = 0)
    (hHash : TransactionHash env (dispatchSign env C).1 = .ok hx)
    (herr : ∀ i, ∃ e, env.getTransactionInfoByID hx i = .error e) :
    (ExecuteTransaction env C).1 = some (timeoutMsg 2) ∧
    ((ExecuteTransaction env C).2.2).queries = 4 := by
  obtain ⟨hdR, hdRc, hdRE, hdB⟩ := dispatch_frame env C
  have hdry1 : ((dispatchSign env C).1).behavior.dryRun = false := by rw [hdB]; exact hDry
  have hs := send_ok_zero env (dispatchSign env C).1 r hSign hdry1 hBr hCode
  have hB1E : ((SendSignedTx env (dispatchSign env C).1).1).executionError = none := by
    rw [hs]; exact hSign
  have hB1dry : ((SendSignedTx env (dispatchSign env C).1).1).behavior.dryRun = false := by
    rw [hs]; exact hdry1
  have hB1wait : ((SendSignedTx env (dispatchSign env C).1).1).behavior.confirmationWaitTime
      = 2 := by
    rw [hs]
    show ((dispatchSign env C).1).behavior.confirmationWaitTime = 2
    rw [hdB]; exact hW
  have hW' : 0 < ((SendSignedTx env (dispatchSign env C).1).1).behavior.confirmationWaitTime := by
    rw [hB1wait]; omega
  have htx : ((SendSignedTx env (dispatchSign env C).1).1).tx = ((dispatchSign env C).1).tx := by
    rw [hs]
  have hB1hash :
      TransactionHash env ((SendSignedTx env (dispatchSign env C).1).1) = .ok hx :=
    (hash_congr env _ _ htx).trans hHash
  have hpoll := conf_poll env ((SendSignedTx env (dispatchSign env C).1).1) hx
    hB1E hB1dry hW' hB1hash
  rw [hB1wait] at hpoll
  have hloop := txLoop_all_err env hx 2 herr (2 + 1) 0
    ((SendSignedTx env (dispatchSign env C).1).1)
  have hcomb : TxConfirmation env ((SendSignedTx env (dispatchSign env C).1).1) =
      ({ (SendSignedTx env (dispatchSign env C).1).1 with
          executionError := some (timeoutMsg 2) }, 0 + (2 + 1) + 1) := by
    rw [hpoll, hloop]
  constructor
  · rw [exec_ret env C, hcomb]
  · rw [exec_queries env C, hcomb]

/-- Witness for C4 (amended) at a concrete always-failing lookup. -/
theorem c4_witness :
    (ExecuteTransaction envTimeout ctlWait2).1 = some (timeoutMsg 2) ∧
    ((ExecuteTransaction envTimeout ctlWait2).2.2).queries = 4 :=
  c4_theorem envTimeout ctlWait2 { code := 0, message := "" } "aa"
    rfl rfl rfl rfl rfl rfl rfl (fun _ => ⟨"pending", rfl⟩)

end TronTx
